import Mathlib

/-!
Shallow embedding of the email deliverability classifier from
`email_checker_app.py` (function `validate_one` and its helpers
`is_blacklisted`, `has_mx`, `is_catch_all`), and of the near-duplicate
variant `check_email` from the second source file.

External collaborators (the `email_validator` library, the downloaded
reference lists, DNS and SMTP) are modelled as an environment `Env` of
oracles.  Network oracles are indexed by a clock `Nat` so that two
distinct invocations of the network may observe different outcomes
(this models, in particular, the fresh random mailbox name the
catch-all probe generates on every real invocation).  The module-level
`functools.lru_cache` memoisation is modelled as an explicit per-run
cache state `RS` threaded through classification; each cache miss
consumes one clock tick and is recorded in a trace of network calls.
The cache is modelled as unbounded memoisation, which is the behaviour
of `lru_cache(maxsize=10_000)` below ten thousand distinct domains.
-/

namespace EmailChecker

/-- Outcome of a DNS A-record query as distinguished by `is_blacklisted`:
a successful resolution, a definitive NXDOMAIN, or any other error. -/
inductive DnsResult where
  | success
  | nxdomain
  | timeout
  | malformed
deriving DecidableEq

/-- An exception raised at some step of the SMTP catch-all probe
(MX resolution, connect, HELO, MAIL, RCPT or QUIT). -/
inductive SmtpErr where
  | dnsFailure
  | connectionRefused
  | timeout
  | protocolError
  | disconnected
deriving DecidableEq

/-- The value returned by `is_catch_all` in the source: the string
`'maybe'` or the boolean `False` (a union type in Python). -/
inductive CatchAllRet where
  | maybe
  | false_
deriving DecidableEq

/-- A network round-trip performed during classification. -/
inductive NetCall where
  | dbl (host : String)
  | mx (domain : String)
  | smtp (domain : String)
deriving DecidableEq

/-- The environment of external collaborators.  `validateEmail` is the
`email_validator` library (returns the parsed local part and domain, or
fails); `typoMap`, `disposable` and `role` are the downloaded reference
lists; the three oracles are the network, indexed by a clock so that
distinct invocations may differ. -/
structure Env where
  validateEmail : String → Option (String × String)
  typoMap : String → Option String
  disposable : String → Bool
  role : String → Bool
  dblOracle : Nat → String → DnsResult
  mxOracle : Nat → String → Bool
  smtpOracle : Nat → String → Except SmtpErr Nat

/-- Per-run cache state: one memo table per `lru_cache`-decorated
helper (`is_blacklisted`, `has_mx`, `is_catch_all`), plus the clock
counting network invocations made so far. -/
structure RS where
  bl : String → Option Bool
  mx : String → Option Bool
  ca : String → Option CatchAllRet
  clock : Nat

/-- The empty cache at the start of a run. -/
def RS.init : RS := ⟨fun _ => none, fun _ => none, fun _ => none, 0⟩

/-- Python's `str.strip()` whitespace set. -/
def isPySpace (c : Char) : Bool :=
  c = ' ' || c = '\t' || c = '\n' || c = '\r' || c = Char.ofNat 11 || c = Char.ofNat 12

/-- `email.strip()` on the underlying character list. -/
def pyStripL (l : List Char) : List Char :=
  ((l.dropWhile isPySpace).reverse.dropWhile isPySpace).reverse

/-- `email.strip()`. -/
def pyStrip (s : String) : String := ⟨pyStripL s.data⟩

/-- `email.replace(";", "")`: delete every semicolon. -/
def dropSemis (s : String) : String := ⟨s.data.filter (fun c => c ≠ ';')⟩

/-- Line 110 of the source: `email = email.strip().replace(";", "")` —
strip first, then delete semicolons. -/
def normalize (s : String) : String := dropSemis (pyStrip s)

/-- Python's `str.lower()` (character-wise lowering; agrees with the
source's use on ASCII domains and local parts). -/
def pyLower (s : String) : String := ⟨s.data.map Char.toLower⟩

/-- `is_blacklisted` (lines 73–83): resolve `f"{domain}.dbl.spamhaus.org"`
for an A record; success means listed, NXDOMAIN and every other error
mean not listed.  `k` is the clock value of this network invocation. -/
def is_blacklisted (env : Env) (k : Nat) (domain : String) : Bool :=
  match env.dblOracle k (domain ++ ".dbl.spamhaus.org") with
  | DnsResult.success => true
  | DnsResult.nxdomain => false
  | DnsResult.timeout => false
  | DnsResult.malformed => false

/-- `has_mx` (lines 65–71): MX query, `true` on success, `false` on any
exception; the oracle already carries that boolean outcome. -/
def has_mx (env : Env) (k : Nat) (domain : String) : Bool :=
  env.mxOracle k domain

/-- `is_catch_all` (lines 85–99): the whole `try` block — MX
resolution, connect, HELO, MAIL, RCPT to a random 16-character mailbox,
QUIT — is abstracted by the oracle, which yields either the RCPT reply
code or the exception raised at whichever step failed.  Reply code 250
returns `'maybe'`; any other code returns `False`; any exception also
returns `False`. -/
def is_catch_all (env : Env) (k : Nat) (domain : String) : CatchAllRet :=
  match env.smtpOracle k domain with
  | Except.ok code => if code == 250 then CatchAllRet.maybe else CatchAllRet.false_
  | Except.error _ => CatchAllRet.false_

/-- Cached call to `is_blacklisted`: on a hit the cache, clock and
trace are untouched; on a miss the oracle is consumed at the current
clock, the result memoised, and the round-trip recorded. -/
def step_bl (env : Env) (s : RS) (d : String) : Bool × RS × List NetCall :=
  match s.bl d with
  | some b => (b, s, [])
  | none =>
    let b := is_blacklisted env s.clock d
    (b, { s with bl := fun x => if x = d then some b else s.bl x, clock := s.clock + 1 },
      [NetCall.dbl d])

/-- Cached call to `has_mx`. -/
def step_mx (env : Env) (s : RS) (d : String) : Bool × RS × List NetCall :=
  match s.mx d with
  | some b => (b, s, [])
  | none =>
    let b := has_mx env s.clock d
    (b, { s with mx := fun x => if x = d then some b else s.mx x, clock := s.clock + 1 },
      [NetCall.mx d])

/-- Cached call to `is_catch_all`. -/
def step_ca (env : Env) (s : RS) (d : String) : CatchAllRet × RS × List NetCall :=
  match s.ca d with
  | some b => (b, s, [])
  | none =>
    let b := is_catch_all env s.clock d
    (b, { s with ca := fun x => if x = d then some b else s.ca x, clock := s.clock + 1 },
      [NetCall.smtp d])

/-- `validate_one` (lines 105–153), instrumented: besides the
`(status, reasons)` pair of the source it returns the updated cache
state and the trace of network round-trips, in order.  The body is a
line-for-line translation: normalize; syntax-validate (failure is
terminal); typo check (terminal); disposable check (terminal); role
annotation (non-disqualifying); blacklist (terminal); MX (terminal);
catch-all; and the final line's membership test
`"Mailbox accepted" in reasons` translated as list membership, exactly
as Python evaluates it. -/
def validate_one_i (env : Env) (s : RS) (email : String) :
    (String × List String) × RS × List NetCall :=
  let e := normalize email
  match env.validateEmail e with
  | none => (("DoNot", ["Invalid syntax"]), s, [])
  | some pd =>
    let domain := pyLower pd.2
    let lpart := pyLower pd.1
    match env.typoMap domain with
    | some right =>
      (("DoNot", ["Possible typo – did you mean **" ++ right ++ "**?"]), s, [])
    | none =>
      if env.disposable domain then
        (("DoNot", ["Disposable / temporary domain"]), s, [])
      else
        let reasons0 :=
          if env.role lpart then ["Role-based address (info@, sales@, etc.)"] else []
        let rb := step_bl env s domain
        if rb.1 then
          (("DoNot", reasons0 ++ ["Domain listed in Spamhaus DBL (malicious/spam)"]),
            rb.2.1, rb.2.2)
        else
          let rm := step_mx env rb.2.1 domain
          if !rm.1 then
            (("DoNot", reasons0 ++ ["No MX records"]), rm.2.1, rb.2.2 ++ rm.2.2)
          else
            let rc := step_ca env rm.2.1 domain
            match rc.1 with
            | CatchAllRet.maybe =>
              (("Maybe", reasons0 ++ ["Catch-all domain – cannot confirm mailbox"]),
                rc.2.1, rb.2.2 ++ rm.2.2 ++ rc.2.2)
            | CatchAllRet.false_ =>
              let reasons := reasons0 ++ ["Mailbox accepted by server"]
              ((if reasons.contains "Mailbox accepted" then "Okay" else "DoNot", reasons),
                rc.2.1, rb.2.2 ++ rm.2.2 ++ rc.2.2)

/-- `validate_one`'s observable result: status and reasons. -/
def validate_one (env : Env) (s : RS) (email : String) : String × List String :=
  (validate_one_i env s email).1

/-- `FALLBACK_TYPOS` (lines 23–24). -/
def FALLBACK_TYPOS : List (String × String) :=
  [("gamil.com", "gmail.com"), ("hotnail.com", "hotmail.com"), ("yaho.com", "yahoo.com")]

/-- Lookup in `FALLBACK_TYPOS`, the in-source typo map. -/
def fallbackTypo (d : String) : Option String :=
  (FALLBACK_TYPOS.find? (fun p => p.1 == d)).map (fun p => p.2)

/-- `DISPOSABLE_DOMAINS` of the second source file. -/
def DISPOSABLE_DOMAINS : List String :=
  ["mailinator.com", "10minutemail.com", "tempmail.com", "yopmail.com"]

/-- `check_email` of the second source file, instrumented with its
network trace: normalize; syntax-validate inside the `try` (failure
terminal, before any lookup); then an uncached MX query is performed
first, and only afterwards the disposable set is consulted. -/
def check_email (env : Env) (email : String) : (String × String) × List NetCall :=
  let e := normalize email
  match env.validateEmail e with
  | none => (("Do Not Send", "Invalid Syntax"), [])
  | some pd =>
    let domain := pd.2
    let hm := env.mxOracle 0 domain
    if !hm then (("Do Not Send", "No MX"), [NetCall.mx domain])
    else if DISPOSABLE_DOMAINS.contains (pyLower domain) then
      (("Do Not Send", "Disposable"), [NetCall.mx domain])
    else (("Okay to Send", "Accepted"), [NetCall.mx domain])

/-- Classify a batch of addresses in order within one run, threading
the cache state and concatenating the network traces. -/
def runBatch (env : Env) (s : RS) : List String → RS × List NetCall
  | [] => (s, [])
  | e :: es =>
    let r := validate_one_i env s e
    let rest := runBatch env r.2.1 es
    (rest.1, r.2.2 ++ rest.2)

/-- Number of SMTP probe round-trips for domain `d` in a trace. -/
def countSmtp (d : String) : List NetCall → Nat
  | [] => 0
  | c :: t => (if c = NetCall.smtp d then 1 else 0) + countSmtp d t

/-- Split a character list at every `'@'`. -/
def splitAtSign : List Char → List (List Char)
  | [] => [[]]
  | c :: t =>
    match splitAtSign t with
    | [] => [[]]
    | h :: r => if c = '@' then [] :: h :: r else (c :: h) :: r

/-- A concrete stand-in for the `email_validator` library, used to
instantiate witness environments: exactly one `@`, non-empty parts
over a conservative character set (in particular no whitespace), and a
dot in the domain.  Every address it accepts is accepted by the
library, and the library rejects everything shown rejected here. -/
def simpleValidateEmail (s : String) : Option (String × String) :=
  match splitAtSign s.data with
  | [l, d] =>
    if l.length > 0 && d.length > 0 &&
        l.all (fun c => c.isAlphanum || c = '.' || c = '-' || c = '_') &&
        d.all (fun c => c.isAlphanum || c = '.' || c = '-') &&
        d.contains '.' then
      some (⟨l⟩, ⟨d⟩)
    else none
  | _ => none

/-- A concrete environment whose SMTP probe always answers 550 at the
RCPT step (the server rejects the random nonexistent mailbox). -/
def envA : Env :=
  { validateEmail := simpleValidateEmail
    typoMap := fallbackTypo
    disposable := fun d => DISPOSABLE_DOMAINS.contains d
    role := fun _ => false
    dblOracle := fun _ _ => DnsResult.nxdomain
    mxOracle := fun _ _ => true
    smtpOracle := fun _ _ => Except.ok 550 }

/-- Like `envA`, but the SMTP probe answers 250: the server accepts the
random nonexistent mailbox (a catch-all domain). -/
def envB : Env := { envA with smtpOracle := fun _ _ => Except.ok 250 }

/-- Like `envA`, but every SMTP probe raises a timeout exception. -/
def envC : Env := { envA with smtpOracle := fun _ _ => Except.error SmtpErr.timeout }


/-! ## Helper lemmas -/

/-- Evaluation of `validate_one` from a fresh cache for an address that
passes syntax, typo, disposable, role, blacklist and MX: the result is
decided by the catch-all probe consulted at clock 2.  Note that the
probe returning `False` — which covers both a rejected random mailbox
and an exception — yields the status `"DoNot"`, because the final line
of the source tests list membership of the string `"Mailbox accepted"`,
which never matches the element `"Mailbox accepted by server"`. -/
theorem validate_one_init_probe (env : Env) (e : String) (pd : String × String)
    (hp : env.validateEmail (normalize e) = some pd)
    (ht : env.typoMap (pyLower pd.2) = none)
    (hd : env.disposable (pyLower pd.2) = false)
    (hr : env.role (pyLower pd.1) = false)
    (hb : is_blacklisted env 0 (pyLower pd.2) = false)
    (hm : has_mx env 1 (pyLower pd.2) = true) :
    validate_one env RS.init e =
      (match is_catch_all env 2 (pyLower pd.2) with
       | CatchAllRet.maybe => ("Maybe", ["Catch-all domain – cannot confirm mailbox"])
       | CatchAllRet.false_ => ("DoNot", ["Mailbox accepted by server"])) := by
  cases hca : is_catch_all env 2 (pyLower pd.2) <;>
    simp [validate_one, validate_one_i, hp, ht, hd, hr, step_bl, step_mx, step_ca, RS.init,
      hb, hm, hca]

/-! ## Claim theorems -/

/-- C3: for every input string that fails syntax validation, both
classifiers return the invalid-syntax verdict, the outcome is terminal
(cache state unchanged, so no later check ran), and the trace of
network calls is empty. -/
theorem invalid_syntax_terminal_no_network (env : Env) (s : RS) (e : String)
    (h : env.validateEmail (normalize e) = none) :
    validate_one_i env s e = (("DoNot", ["Invalid syntax"]), s, []) ∧
    check_email env e = (("Do Not Send", "Invalid Syntax"), []) := by
  constructor <;> simp [validate_one_i, check_email, h]

/-- Witness for C3 at the concrete scenario input `"not-an-email"`. -/
theorem invalid_syntax_terminal_no_network_witness :
    envA.validateEmail (normalize "not-an-email") = none ∧
    (validate_one_i envA RS.init "not-an-email" = (("DoNot", ["Invalid syntax"]), RS.init, []) ∧
     check_email envA "not-an-email" = (("Do Not Send", "Invalid Syntax"), [])) :=
  ⟨by decide, invalid_syntax_terminal_no_network envA RS.init "not-an-email" (by decide)⟩

/-- C4: for every well-formed address whose (lower-cased) domain is in
the disposable set and not in the typo map, `validate_one` returns the
disposable verdict with an untouched cache and an empty network trace —
for every environment, hence for every possible DNS/SMTP outcome. -/
theorem disposable_before_network (env : Env) (s : RS) (e : String) (pd : String × String)
    (hp : env.validateEmail (normalize e) = some pd)
    (ht : env.typoMap (pyLower pd.2) = none)
    (hd : env.disposable (pyLower pd.2) = true) :
    validate_one_i env s e = (("DoNot", ["Disposable / temporary domain"]), s, []) := by
  simp [validate_one_i, hp, ht, hd]

/-- Witness for C4 at the concrete scenario input `"user@mailinator.com"`. -/
theorem disposable_before_network_witness :
    envA.validateEmail (normalize "user@mailinator.com") = some ("user", "mailinator.com") ∧
    envA.typoMap "mailinator.com" = none ∧
    envA.disposable "mailinator.com" = true ∧
    validate_one_i envA RS.init "user@mailinator.com" =
      (("DoNot", ["Disposable / temporary domain"]), RS.init, []) :=
  ⟨by decide, by decide, by decide,
    disposable_before_network envA RS.init "user@mailinator.com" ("user", "mailinator.com")
      (by decide) (by decide) (by decide)⟩

/-- C5: for every well-formed address whose (lower-cased) domain is a
key of the typo map, `validate_one` returns the typo verdict whose
detail suggests the mapped correction, with an untouched cache and an
empty network trace: no further check runs. -/
theorem typo_shortcircuit (env : Env) (s : RS) (e : String) (pd : String × String)
    (right : String)
    (hp : env.validateEmail (normalize e) = some pd)
    (ht : env.typoMap (pyLower pd.2) = some right) :
    validate_one_i env s e =
      (("DoNot", ["Possible typo – did you mean **" ++ right ++ "**?"]), s, []) := by
  simp [validate_one_i, hp, ht]

/-- Witness for C5 at the concrete scenario input `"user@gamil.com"`,
whose suggested correction is `gmail.com` (from `FALLBACK_TYPOS`). -/
theorem typo_shortcircuit_witness :
    envA.typoMap "gamil.com" = some "gmail.com" ∧
    validate_one_i envA RS.init "user@gamil.com" =
      (("DoNot", ["Possible typo – did you mean **gmail.com**?"]), RS.init, []) :=
  ⟨by decide,
    typo_shortcircuit envA RS.init "user@gamil.com" ("user", "gamil.com") "gmail.com"
      (by decide) (by decide)⟩

/-- C7: `is_blacklisted` returns `true` exactly when the blocklist DNS
resolution of the derived hostname `domain ++ ".dbl.spamhaus.org"`
succeeds; NXDOMAIN and every other error yield `false`. -/
theorem is_blacklisted_iff_success (env : Env) (k : Nat) (d : String) :
    is_blacklisted env k d = true ↔
      env.dblOracle k (d ++ ".dbl.spamhaus.org") = DnsResult.success := by
  unfold is_blacklisted
  cases env.dblOracle k (d ++ ".dbl.spamhaus.org") <;> simp

/-- C1: the code, not the spec, is wrong here.  `validate_one` can
never return the status `"Okay"`: its final line tests list membership
of the string `"Mailbox accepted"`, but the only reason ever appended
at that stage is `"Mailbox accepted by server"`, so the test is always
false.  In particular, for the concrete passing address
`user@example.com` whose probe rejects the random mailbox with code
550 (`RejectsUnknown`), the verdict is `("DoNot", ...)` although the
comment `# passes SMTP`, the docstring and the UI status map show the
intended verdict `"Okay"`. -/
theorem validate_one_never_Okay :
    (∀ env s e, (validate_one env s e).1 = "DoNot" ∨ (validate_one env s e).1 = "Maybe") ∧
    validate_one envA RS.init "user@example.com" = ("DoNot", ["Mailbox accepted by server"]) := by
  constructor
  · intro env s e
    have h1 : (["Mailbox accepted by server"] : List String).contains "Mailbox accepted"
        = false := by decide
    have h2 : (["Role-based address (info@, sales@, etc.)",
        "Mailbox accepted by server"] : List String).contains "Mailbox accepted" = false := by
      decide
    rcases hp : env.validateEmail (normalize e) with _ | pd
    · simp [validate_one, validate_one_i, hp]
    · rcases ht : env.typoMap (pyLower pd.2) with _ | right
      · cases hd : env.disposable (pyLower pd.2)
        · cases hb : (step_bl env s (pyLower pd.2)).1
          · cases hm : (step_mx env (step_bl env s (pyLower pd.2)).2.1 (pyLower pd.2)).1
            · simp [validate_one, validate_one_i, hp, ht, hd, hb, hm]
            · cases hca : (step_ca env (step_mx env (step_bl env s (pyLower pd.2)).2.1
                  (pyLower pd.2)).2.1 (pyLower pd.2)).1
              · simp [validate_one, validate_one_i, hp, ht, hd, hb, hm, hca]
              · cases hr : env.role (pyLower pd.1) <;>
                  simp [validate_one, validate_one_i, hp, ht, hd, hb, hm, hca, hr, h1, h2]
          · simp [validate_one, validate_one_i, hp, ht, hd, hb]
        · simp [validate_one, validate_one_i, hp, ht, hd]
      · simp [validate_one, validate_one_i, hp, ht]
  · decide

/-- C2, counterexample: `validate_one` has no policy parameter, and for
an otherwise-passing address whose probe reports `AcceptsAll` (reply
code 250) its sole behaviour returns the status `"Maybe"` — not the
`"DoNot"` the claim asserts for the strict policy. -/
theorem acceptsAll_default_yields_MaybeSend :
    validate_one envB RS.init "user@example.com" =
      ("Maybe", ["Catch-all domain – cannot confirm mailbox"]) := by decide

/-- C2, amended: `validate_one` takes no policy configuration; its
single behaviour maps an `AcceptsAll` probe result to
`("Maybe", CatchAll)` — the lenient outcome — while an exception
(`Unknown`) probe result yields `"DoNot"`. -/
theorem validate_one_no_policy_catchAll (env : Env) (e : String) (pd : String × String)
    (hp : env.validateEmail (normalize e) = some pd)
    (ht : env.typoMap (pyLower pd.2) = none)
    (hd : env.disposable (pyLower pd.2) = false)
    (hr : env.role (pyLower pd.1) = false)
    (hb : is_blacklisted env 0 (pyLower pd.2) = false)
    (hm : has_mx env 1 (pyLower pd.2) = true) :
    (env.smtpOracle 2 (pyLower pd.2) = Except.ok 250 →
      validate_one env RS.init e = ("Maybe", ["Catch-all domain – cannot confirm mailbox"])) ∧
    (∀ err, env.smtpOracle 2 (pyLower pd.2) = Except.error err →
      validate_one env RS.init e = ("DoNot", ["Mailbox accepted by server"])) := by
  constructor
  · intro hs
    rw [validate_one_init_probe env e pd hp ht hd hr hb hm]
    simp [is_catch_all, hs]
  · intro err hs
    rw [validate_one_init_probe env e pd hp ht hd hr hb hm]
    simp [is_catch_all, hs]

/-- Witness for the amended C2: a catch-all domain under the one and
only behaviour yields `"Maybe"`, an SMTP timeout yields `"DoNot"`. -/
theorem validate_one_no_policy_catchAll_witness :
    validate_one envB RS.init "u@example.com" =
      ("Maybe", ["Catch-all domain – cannot confirm mailbox"]) ∧
    validate_one envC RS.init "u@example.com" =
      ("DoNot", ["Mailbox accepted by server"]) :=
  ⟨(validate_one_no_policy_catchAll envB "u@example.com" ("u", "example.com")
      (by decide) (by decide) (by decide) (by decide) (by decide) (by decide)).1 rfl,
   (validate_one_no_policy_catchAll envC "u@example.com" ("u", "example.com")
      (by decide) (by decide) (by decide) (by decide) (by decide) (by decide)).2
      SmtpErr.timeout rfl⟩

/-- C6, counterexample: an exception during the probe does not yield a
distinct `Unknown` outcome.  `is_catch_all` returns the very same value
`False` for a timeout exception (`envC`) as for a 550 rejection
(`envA`), and the overall classification of the same address is
identical in the two situations — the spec's `Unknown`, with its own
`CatchAll-unconfirmed` reason, does not exist in the code. -/
theorem probe_exception_outcome_not_distinct :
    is_catch_all envC 0 "example.com" = CatchAllRet.false_ ∧
    is_catch_all envA 0 "example.com" = CatchAllRet.false_ ∧
    validate_one envC RS.init "user2@example.com" =
      validate_one envA RS.init "user2@example.com" := by decide

/-- C6, amended: any exception at any probe step is absorbed inside
`is_catch_all` and yields the outcome `False` — the same value as a
rejection — which `validate_one` maps to the verdict `"DoNot"` (the
status `"Okay"` is unreachable in the code); the classifier sees only
the returned value, never a raw network exception. -/
theorem probe_exception_absorbed_DoNot (env : Env) (e : String) (pd : String × String)
    (err : SmtpErr)
    (hp : env.validateEmail (normalize e) = some pd)
    (ht : env.typoMap (pyLower pd.2) = none)
    (hd : env.disposable (pyLower pd.2) = false)
    (hr : env.role (pyLower pd.1) = false)
    (hb : is_blacklisted env 0 (pyLower pd.2) = false)
    (hm : has_mx env 1 (pyLower pd.2) = true)
    (hs : env.smtpOracle 2 (pyLower pd.2) = Except.error err) :
    is_catch_all env 2 (pyLower pd.2) = CatchAllRet.false_ ∧
    validate_one env RS.init e = ("DoNot", ["Mailbox accepted by server"]) := by
  have hca : is_catch_all env 2 (pyLower pd.2) = CatchAllRet.false_ := by
    simp [is_catch_all, hs]
  refine ⟨hca, ?_⟩
  rw [validate_one_init_probe env e pd hp ht hd hr hb hm, hca]

/-- Witness for the amended C6 at a concrete timed-out probe. -/
theorem probe_exception_absorbed_DoNot_witness :
    is_catch_all envC 2 "example.com" = CatchAllRet.false_ ∧
    validate_one envC RS.init "user@example.com" =
      ("DoNot", ["Mailbox accepted by server"]) :=
  probe_exception_absorbed_DoNot envC "user@example.com" ("user", "example.com")
    SmtpErr.timeout (by decide) (by decide) (by decide) (by decide) (by decide) (by decide)
    rfl

/-- C10, counterexample: classification is not invariant under deleting
every `';'` and trimming.  The source trims first and deletes
semicolons afterwards, so semicolons at the ends shield whitespace
from the trim: `";  user@gamil.com  ;"` normalizes to
`"  user@gamil.com  "` and is rejected as invalid syntax, while the
claim's normal form `"user@gamil.com"` is classified as a typo. -/
theorem semicolon_deletion_not_invariant :
    validate_one envA RS.init ";  user@gamil.com  ;" = ("DoNot", ["Invalid syntax"]) ∧
    pyStrip (dropSemis ";  user@gamil.com  ;") = "user@gamil.com" ∧
    validate_one envA RS.init "user@gamil.com" =
      ("DoNot", ["Possible typo – did you mean **gmail.com**?"]) := by decide

/-- C10, amended: classification is invariant under the source's own
normalization (trim, then delete every `';'`) whenever the normalized
string carries no residual leading or trailing whitespace; inputs such
as `"jo;hn@exam;ple.com"` are therefore classified exactly like
`"john@example.com"`. -/
theorem normalize_invariant_of_trimmed (env : Env) (s : RS) (e : String)
    (h : pyStrip (normalize e) = normalize e) :
    validate_one_i env s e = validate_one_i env s (normalize e) := by
  have h2 : dropSemis (dropSemis (pyStrip e)) = dropSemis (pyStrip e) := by
    unfold dropSemis
    simp [List.filter_filter]
  have hfix : normalize (normalize e) = normalize e := by
    calc normalize (normalize e) = dropSemis (pyStrip (normalize e)) := rfl
      _ = dropSemis (normalize e) := by rw [h]
      _ = normalize e := h2
  have key : ∀ a b : String, normalize a = normalize b →
      validate_one_i env s a = validate_one_i env s b := by
    intro a b hab
    simp only [validate_one_i, hab]
  exact key e (normalize e) hfix.symm

/-- Witness for the amended C10 at the concrete input
`"jo;hn@exam;ple.com"`. -/
theorem normalize_invariant_of_trimmed_witness :
    pyStrip (normalize "jo;hn@exam;ple.com") = normalize "jo;hn@exam;ple.com" ∧
    validate_one_i envA RS.init "jo;hn@exam;ple.com" =
      validate_one_i envA RS.init (normalize "jo;hn@exam;ple.com") :=
  ⟨by decide, normalize_invariant_of_trimmed envA RS.init "jo;hn@exam;ple.com" (by decide)⟩

/-! ## Cache-step lemmas -/

/-- A hit leaves the state untouched and makes no network call. -/
theorem step_bl_hit (env : Env) (s : RS) (d : String) (b : Bool) (h : s.bl d = some b) :
    step_bl env s d = (b, s, []) := by simp [step_bl, h]

/-- After the cached call, the returned value is memoised. -/
theorem step_bl_self (env : Env) (s : RS) (d : String) :
    (step_bl env s d).2.1.bl d = some (step_bl env s d).1 := by
  cases h : s.bl d <;> simp [step_bl, h]

theorem step_bl_mx (env : Env) (s : RS) (d : String) :
    (step_bl env s d).2.1.mx = s.mx := by
  cases h : s.bl d <;> simp [step_bl, h]

theorem step_bl_ca (env : Env) (s : RS) (d : String) :
    (step_bl env s d).2.1.ca = s.ca := by
  cases h : s.bl d <;> simp [step_bl, h]

theorem step_mx_hit (env : Env) (s : RS) (d : String) (b : Bool) (h : s.mx d = some b) :
    step_mx env s d = (b, s, []) := by simp [step_mx, h]

theorem step_mx_self (env : Env) (s : RS) (d : String) :
    (step_mx env s d).2.1.mx d = some (step_mx env s d).1 := by
  cases h : s.mx d <;> simp [step_mx, h]

theorem step_mx_bl (env : Env) (s : RS) (d : String) :
    (step_mx env s d).2.1.bl = s.bl := by
  cases h : s.mx d <;> simp [step_mx, h]

theorem step_mx_ca (env : Env) (s : RS) (d : String) :
    (step_mx env s d).2.1.ca = s.ca := by
  cases h : s.mx d <;> simp [step_mx, h]

theorem step_ca_hit (env : Env) (s : RS) (d : String) (b : CatchAllRet) (h : s.ca d = some b) :
    step_ca env s d = (b, s, []) := by simp [step_ca, h]

theorem step_ca_self (env : Env) (s : RS) (d : String) :
    (step_ca env s d).2.1.ca d = some (step_ca env s d).1 := by
  cases h : s.ca d <;> simp [step_ca, h]

theorem step_ca_bl (env : Env) (s : RS) (d : String) :
    (step_ca env s d).2.1.bl = s.bl := by
  cases h : s.ca d <;> simp [step_ca, h]

theorem step_ca_mx (env : Env) (s : RS) (d : String) :
    (step_ca env s d).2.1.mx = s.mx := by
  cases h : s.ca d <;> simp [step_ca, h]

/-- Re-running `validate_one` on the same address from the cache state
left by the first run takes exactly the same path, hits every cache,
returns the same `(status, reasons)` pair and the same state, and
performs no network call. -/
theorem validate_one_i_stable (env : Env) (s : RS) (e : String) :
    validate_one_i env (validate_one_i env s e).2.1 e =
      ((validate_one_i env s e).1, (validate_one_i env s e).2.1, []) := by
  rcases hp : env.validateEmail (normalize e) with _ | pd
  · simp [validate_one_i, hp]
  · rcases ht : env.typoMap (pyLower pd.2) with _ | right
    case none =>
      cases hd : env.disposable (pyLower pd.2)
      case false =>
        cases hb : (step_bl env s (pyLower pd.2)).1
        case false =>
          have hbl1 : (step_bl env s (pyLower pd.2)).2.1.bl (pyLower pd.2) = some false := by
            have h := step_bl_self env s (pyLower pd.2)
            rw [hb] at h
            exact h
          cases hm : (step_mx env (step_bl env s (pyLower pd.2)).2.1 (pyLower pd.2)).1
          case false =>
            have hbl2 : (step_mx env (step_bl env s (pyLower pd.2)).2.1
                (pyLower pd.2)).2.1.bl (pyLower pd.2) = some false := by
              rw [step_mx_bl]
              exact hbl1
            have hmx2 : (step_mx env (step_bl env s (pyLower pd.2)).2.1
                (pyLower pd.2)).2.1.mx (pyLower pd.2) = some false := by
              have h := step_mx_self env (step_bl env s (pyLower pd.2)).2.1 (pyLower pd.2)
              rw [hm] at h
              exact h
            simp [validate_one_i, hp, ht, hd, hb, hm,
              step_bl_hit _ _ _ _ hbl2, step_mx_hit _ _ _ _ hmx2]
          case true =>
            have hbl3 : (step_ca env (step_mx env (step_bl env s (pyLower pd.2)).2.1
                (pyLower pd.2)).2.1 (pyLower pd.2)).2.1.bl (pyLower pd.2) = some false := by
              rw [step_ca_bl, step_mx_bl]
              exact hbl1
            have hmx3 : (step_ca env (step_mx env (step_bl env s (pyLower pd.2)).2.1
                (pyLower pd.2)).2.1 (pyLower pd.2)).2.1.mx (pyLower pd.2) = some true := by
              rw [step_ca_mx]
              have h := step_mx_self env (step_bl env s (pyLower pd.2)).2.1 (pyLower pd.2)
              rw [hm] at h
              exact h
            have hca3 := step_ca_self env
              (step_mx env (step_bl env s (pyLower pd.2)).2.1 (pyLower pd.2)).2.1 (pyLower pd.2)
            cases hca : (step_ca env (step_mx env (step_bl env s (pyLower pd.2)).2.1
                (pyLower pd.2)).2.1 (pyLower pd.2)).1 <;>
              rw [hca] at hca3 <;>
              simp [validate_one_i, hp, ht, hd, hb, hm, hca,
                step_bl_hit _ _ _ _ hbl3, step_mx_hit _ _ _ _ hmx3,
                step_ca_hit _ _ _ _ hca3]
        case true =>
          have hbl1 : (step_bl env s (pyLower pd.2)).2.1.bl (pyLower pd.2) = some true := by
            have h := step_bl_self env s (pyLower pd.2)
            rw [hb] at h
            exact h
          simp [validate_one_i, hp, ht, hd, hb, step_bl_hit _ _ _ _ hbl1]
      case true =>
        simp [validate_one_i, hp, ht, hd]
    case some =>
      simp [validate_one_i, hp, ht]

/-- C8: classifying the same address twice within one run (the second
classification starting from the cache state left by the first) yields
an identical verdict and identical reasons, even though the underlying
probe oracle may answer differently at different clocks (modelling the
random mailbox name). -/
theorem classification_idempotent (env : Env) (s : RS) (e : String) :
    validate_one env (validate_one_i env s e).2.1 e = validate_one env s e := by
  unfold validate_one
  rw [validate_one_i_stable]

/-- Potential of a cache state with respect to domain `d`: 1 while the
catch-all result for `d` is not yet memoised, 0 afterwards. -/
def caPot (d : String) (s : RS) : Nat := if (s.ca d).isSome then 0 else 1

theorem countSmtp_append (d : String) (t1 t2 : List NetCall) :
    countSmtp d (t1 ++ t2) = countSmtp d t1 + countSmtp d t2 := by
  induction t1 with
  | nil => simp [countSmtp]
  | cons c t ih => simp [countSmtp, ih]; omega

theorem step_bl_no_smtp (env : Env) (s : RS) (d x : String) :
    countSmtp d (step_bl env s x).2.2 = 0 := by
  cases h : s.bl x <;> simp [step_bl, h, countSmtp]

theorem step_mx_no_smtp (env : Env) (s : RS) (d x : String) :
    countSmtp d (step_mx env s x).2.2 = 0 := by
  cases h : s.mx x <;> simp [step_mx, h, countSmtp]

theorem caPot_step_bl (env : Env) (s : RS) (d x : String) :
    caPot d (step_bl env s x).2.1 = caPot d s := by
  unfold caPot
  rw [step_bl_ca]

theorem caPot_step_mx (env : Env) (s : RS) (d x : String) :
    caPot d (step_mx env s x).2.1 = caPot d s := by
  unfold caPot
  rw [step_mx_ca]

/-- One cached probe call performs at most as many SMTP round-trips
for `d` as the potential it consumes. -/
theorem step_ca_count (env : Env) (s : RS) (x d : String) :
    countSmtp d (step_ca env s x).2.2 + caPot d (step_ca env s x).2.1 ≤ caPot d s := by
  cases h : s.ca x with
  | some b => simp [step_ca, h, countSmtp]
  | none =>
    rcases eq_or_ne x d with rfl | hne
    · simp [step_ca, h, countSmtp, caPot]
    · simp [step_ca, h, countSmtp, caPot, hne, Ne.symm hne]

/-- One classification performs at most as many SMTP round-trips for
`d` as the potential it consumes, and never resurrects potential. -/
theorem validate_smtp_invariant (env : Env) (s : RS) (e : String) (d : String) :
    countSmtp d (validate_one_i env s e).2.2 + caPot d (validate_one_i env s e).2.1 ≤
      caPot d s := by
  rcases hp : env.validateEmail (normalize e) with _ | pd
  · simp [validate_one_i, hp, countSmtp]
  · rcases ht : env.typoMap (pyLower pd.2) with _ | right
    case none =>
      cases hd : env.disposable (pyLower pd.2)
      case false =>
        cases hb : (step_bl env s (pyLower pd.2)).1
        case false =>
          cases hm : (step_mx env (step_bl env s (pyLower pd.2)).2.1 (pyLower pd.2)).1
          case false =>
            simp [validate_one_i, hp, ht, hd, hb, hm, countSmtp_append,
              step_bl_no_smtp, step_mx_no_smtp, caPot_step_bl, caPot_step_mx]
          case true =>
            have hca := step_ca_count env
              (step_mx env (step_bl env s (pyLower pd.2)).2.1 (pyLower pd.2)).2.1
              (pyLower pd.2) d
            cases hval : (step_ca env (step_mx env (step_bl env s (pyLower pd.2)).2.1
                (pyLower pd.2)).2.1 (pyLower pd.2)).1 <;>
              simp [validate_one_i, hp, ht, hd, hb, hm, hval, countSmtp_append,
                step_bl_no_smtp, step_mx_no_smtp] <;>
              simp only [caPot_step_bl, caPot_step_mx] at hca <;>
              omega
        case true =>
          simp [validate_one_i, hp, ht, hd, hb, step_bl_no_smtp, caPot_step_bl]
      case true =>
        simp [validate_one_i, hp, ht, hd, countSmtp]
    case some =>
      simp [validate_one_i, hp, ht, countSmtp]

/-- C9: within one run started from an empty cache, for any sequence
of classified addresses, the catch-all probe's underlying network
operation is executed at most once for any given domain `d`; all later
classifications of that domain reuse the memoised outcome. -/
theorem probe_at_most_once_per_domain (env : Env) (emails : List String) (d : String) :
    countSmtp d (runBatch env RS.init emails).2 ≤ 1 := by
  have main : ∀ (es : List String) (s : RS),
      countSmtp d (runBatch env s es).2 + caPot d (runBatch env s es).1 ≤ caPot d s := by
    intro es
    induction es with
    | nil => intro s; simp [runBatch, countSmtp]
    | cons e tail ih =>
      intro s
      have h1 := validate_smtp_invariant env s e d
      have h2 := ih (validate_one_i env s e).2.1
      simp only [runBatch, countSmtp_append]
      omega
  have h := main emails RS.init
  have hpot : caPot d RS.init = 1 := by simp [caPot, RS.init]
  omega

end EmailChecker
